import Mathlib

/-!
Verification of the sales-dashboard core logic: the normalizer
(data_loader.load_sales_data), the holiday window engine (the Holidays
Analysis tab of app.py and dashboard_tabs.render_holidays_analysis_tab) and
the growth comparator (the year-over-year growth and projected-growth
columns of app.py).

Conventions of the embedding:
- Timestamps produced by pd.to_datetime are day numbers (proleptic
  Gregorian rata die), an Int.  pd.Timestamp(year, month, day) construction
  is the pair (isValidDate, toDayNum): construction raises exactly when
  isValidDate is false, which the source catches and skips.
- A pandas cell that can be NaN is an Option: none is NaN.  Series.sum
  skips NaN (pdSum); a comparison column == value is false on NaN cells
  (pandasEq), including NaN == NaN.
- Monetary columns are exact rationals; pd.to_numeric with coercion of
  errors is toNumeric, mapping non-numeric or missing raw cells to NaN.
- The unguarded float expression ((curr / prev) - 1) * 100 of the growth
  columns is embedded with IEEE division-by-zero semantics (PdFloat).
-/

namespace Dashboard

/-! ### Calendar: pd.Timestamp construction and day numbering -/

/-- Gregorian leap-year rule, as implemented by pd.Timestamp. -/
def isLeapYear (y : Nat) : Bool :=
  (y % 4 == 0 && y % 100 != 0) || (y % 400 == 0)

/-- Number of days in month m of year y (months 1..12). -/
def daysInMonth (y m : Nat) : Nat :=
  if m = 2 then (if isLeapYear y then 29 else 28)
  else if m = 4 ∨ m = 6 ∨ m = 9 ∨ m = 11 then 30
  else 31

/-- Whether pd.Timestamp (year y, month m, day d) constructs without
raising: m in 1..12 and d in 1..daysInMonth. -/
def isValidDate (y m d : Nat) : Bool :=
  1 ≤ m && m ≤ 12 && 1 ≤ d && d ≤ daysInMonth y m

/-- Days in the months strictly before month m of a non-leap year. -/
def cumDaysBeforeMonth (m : Nat) : Nat :=
  match m with
  | 1 => 0 | 2 => 31 | 3 => 59 | 4 => 90 | 5 => 120 | 6 => 151
  | 7 => 181 | 8 => 212 | 9 => 243 | 10 => 273 | 11 => 304 | 12 => 334
  | _ => 0

/-- Rata-die day number of the valid date (y, m, d), y at least 1: the
total order and day arithmetic of pd.Timestamp values. -/
def toDayNum (y m d : Nat) : Int :=
  (365 * (y - 1) + (y - 1) / 4 - (y - 1) / 100 + (y - 1) / 400
    + cumDaysBeforeMonth m + (if 2 < m && isLeapYear y then 1 else 0) + d : Nat)

/-! ### Normalizer: data_loader.load_sales_data -/

/-- A raw monetary cell as it stands after the currency-symbol strip:
either absent (null), a numeric literal, or text that is not a number. -/
inductive RawVal where
  | missing : RawVal
  | numeric (q : ℚ) : RawVal
  | nonNumeric (s : String) : RawVal
deriving DecidableEq

/-- pd.to_numeric with coercion of errors: numeric cells pass through,
missing or non-numeric cells become NaN (none). -/
def toNumeric : RawVal → Option ℚ
  | RawVal.numeric q => some q
  | _ => none

/-- One raw row of the paulsons table as handed to load_sales_data.
sale_date holds the result of pd.to_datetime with coercion of errors on
the raw date cell: none is NaT (the raw text did not parse). -/
structure RawRecord where
  center_name : Option String
  sale_date : Option Int
  sales_collected_inc_tax : RawVal
  sales_collected_exc_tax : RawVal
deriving DecidableEq

/-- One cleaned row: the sale date parsed (the dropna on sale_date has
happened), monetary columns coerced.  center_name is copied unchanged into
the SALON NAMES column; no null check is applied to it. -/
structure SaleRecord where
  center_name : Option String
  sale_date : Int
  sales_collected_inc_tax : Option ℚ
  sales_collected_exc_tax : Option ℚ
deriving DecidableEq

/-- The per-row cleaning of load_sales_data for a row whose date parsed. -/
def normalizeRow (r : RawRecord) (d : Int) : SaleRecord :=
  { center_name := r.center_name
    sale_date := d
    sales_collected_inc_tax := toNumeric r.sales_collected_inc_tax
    sales_collected_exc_tax := toNumeric r.sales_collected_exc_tax }

/-- load_sales_data cleaning: coerce the monetary columns, parse
sale_date, drop the rows whose sale_date is NaT.  No other row is
dropped. -/
def normalize (rows : List RawRecord) : List SaleRecord :=
  rows.filterMap (fun r =>
    match r.sale_date with
    | none => none
    | some d => some (normalizeRow r d))

/-! ### Pandas sum and comparison semantics -/

/-- Series.sum over a float column: NaN cells are skipped (count as 0). -/
def pdSum (xs : List (Option ℚ)) : ℚ :=
  (xs.map (fun x => x.getD 0)).sum

/-- Sum of sales_collected_inc_tax over a record set. -/
def incTotal (rs : List SaleRecord) : ℚ :=
  pdSum (rs.map (fun r => r.sales_collected_inc_tax))

/-- Sum of sales_collected_exc_tax over a record set. -/
def excTotal (rs : List SaleRecord) : ℚ :=
  pdSum (rs.map (fun r => r.sales_collected_exc_tax))

/-- Pandas equality of a possibly-null cell against a possibly-null value:
a NaN cell compares false against everything, including NaN itself. -/
def pandasEq (a b : Option String) : Bool :=
  match a, b with
  | some x, some y => x == y
  | _, _ => false

/-- The rows of records whose sale_date equals the day d: the exact-date
match of the festival loops (sale_date.dt.date == festival_date.date()). -/
def salesOnDate (records : List SaleRecord) (d : Int) : List SaleRecord :=
  records.filter (fun r => r.sale_date == d)

/-- The distinct center_name values of a record set, one entry each:
Series.unique up to enumeration order (order never affects a sum here). -/
def uniqueCenters (rs : List SaleRecord) : List (Option String) :=
  (rs.map (fun r => r.center_name)).dedup

/-- Inc-tax total of the rows of rs whose center_name column == c under
pandas comparison semantics. -/
def perCenterIncTotal (rs : List SaleRecord) (c : Option String) : ℚ :=
  incTotal (rs.filter (fun r => pandasEq r.center_name c))

/-! ### Holiday window engine -/

/-- A recurring holiday anchor from the leaves data: name with the month
and day extracted from its reference date. -/
structure HolidayDef where
  name : String
  month : Nat
  day : Nat
deriving DecidableEq

/-- A holiday instantiated in one observed year. -/
structure HolidayOccurrence where
  name : String
  year : Nat
  dateNum : Int
deriving DecidableEq

/-- The condition under which the occurrence loop emits a row for year y:
pd.Timestamp(y, month, day) constructs, and the sales rows on that exact
date are non-empty (the if not date_sales.empty guard). -/
def occursInYear (records : List SaleRecord) (hd : HolidayDef) (y : Nat) : Bool :=
  isValidDate y hd.month hd.day
    && !(salesOnDate records (toDayNum y hd.month hd.day)).isEmpty

/-- The occurrence-generation loop shared by app.py (tab 5) and
dashboard_tabs.render_holidays_analysis_tab: for each available year, try
pd.Timestamp(year, month, day); on an invalid date the raised error is
caught and the year skipped; an occurrence row is appended only when the
sales rows on that exact date are non-empty. -/
def instantiate (records : List SaleRecord) (hd : HolidayDef)
    (years : List Nat) : List HolidayOccurrence :=
  years.filterMap (fun y =>
    if occursInYear records hd y
    then some ⟨hd.name, y, toDayNum y hd.month hd.day⟩
    else none)

/-- start_date = festival_date - pd.Timedelta(days=3). -/
def windowStart (occ : HolidayOccurrence) : Int := occ.dateNum - 3

/-- end_date = festival_date + pd.Timedelta(days=2). -/
def windowEnd (occ : HolidayOccurrence) : Int := occ.dateNum + 2

/-- Membership of a sale timestamp in the closed trading window. -/
def inWindow (occ : HolidayOccurrence) (t : Int) : Bool :=
  decide (windowStart occ ≤ t) && decide (t ≤ windowEnd occ)

/-- The center filter: with a selected center the source keeps the rows
with center_name == that center; with none selected it keeps every row. -/
def matchesCenter (cf : Option String) (r : SaleRecord) : Bool :=
  match cf with
  | some c => pandasEq r.center_name (some c)
  | none => true

/-- The window filter of both holiday tabs: center filter (when one is
selected) and sale_date >= start_date and sale_date <= end_date. -/
def windowRecords (records : List SaleRecord) (occ : HolidayOccurrence)
    (cf : Option String) : List SaleRecord :=
  records.filter (fun r => matchesCenter cf r && inWindow occ r.sale_date)

/-- window_sales of the original tab (app.py): sum of
sales_collected_inc_tax over the window rows. -/
def appWindowSales (records : List SaleRecord) (occ : HolidayOccurrence)
    (cf : Option String) : ℚ :=
  incTotal (windowRecords records occ cf)

/-- window_sales of the modular tab (dashboard_tabs.py): sum of
sales_collected_exc_tax over the window rows. -/
def modWindowSales (records : List SaleRecord) (occ : HolidayOccurrence)
    (cf : Option String) : ℚ :=
  excTotal (windowRecords records occ cf)

/-- One row of the festival_performance table. -/
structure WindowAggregate where
  festival : String
  year : Nat
  center : String
  totalSales : ℚ
  avgDaily : ℚ
deriving DecidableEq

/-- The festival_performance entry built by app.py for one occurrence:
Total Window Sales is the window sum, Average Daily Sales is that sum
divided by the literal 6 (the comment in the source reads: 6 days
window). -/
def mkWindowAggregate (records : List SaleRecord) (occ : HolidayOccurrence)
    (cf : Option String) (centerLabel : String) : WindowAggregate :=
  { festival := occ.name
    year := occ.year
    center := centerLabel
    totalSales := appWindowSales records occ cf
    avgDaily := appWindowSales records occ cf / 6 }

/-- The ranked best-performing table: entries are appended only when
window_sales > 0, then sort_values on Total Window Sales descending.  The
source uses the default sort kind, which does not promise a tie order, so
the embedding fixes an arbitrary executable sort and only the properties
shared by every sort — which entries appear, and the descending order of
the totals — are asserted about it. -/
def rankWindows (aggs : List WindowAggregate) : List WindowAggregate :=
  (aggs.filter (fun a => decide (0 < a.totalSales))).mergeSort
    (fun a b => decide (b.totalSales ≤ a.totalSales))

/-! ### Growth comparator -/

/-- A pandas float cell as produced by the growth columns. -/
inductive PdFloat where
  | fin (q : ℚ) : PdFloat
  | posInf : PdFloat
  | negInf : PdFloat
  | nan : PdFloat
deriving DecidableEq

/-- The growth column ((current / previous) - 1) * 100 of app.py (tab 2
pivot_data and tab 4 center_pivot), with the IEEE float semantics pandas
gives that expression when the previous-year cell is 0: positive / 0 is
+inf, negative / 0 is -inf, 0 / 0 is NaN, and inf or NaN propagates
through the subtraction and scaling unchanged. -/
def growthPct (prev curr : ℚ) : PdFloat :=
  if prev = 0 then
    if 0 < curr then PdFloat.posInf
    else if curr < 0 then PdFloat.negInf
    else PdFloat.nan
  else PdFloat.fin ((curr / prev - 1) * 100)

/-- Round a rational to the nearest integer, ties to even: the IEEE
rounding rule applied to an integer-scaled significand. -/
def roundNearestEven (x : ℚ) : ℤ :=
  if x - Int.floor x < 1 / 2 then Int.floor x
  else if 1 / 2 < x - Int.floor x then Int.floor x + 1
  else if Int.floor x % 2 = 0 then Int.floor x else Int.floor x + 1

/-- Round a rational to the nearest IEEE binary64 value (53-bit
significand, round to nearest, ties to even), returned as an exact
rational.  Overflow to infinity and subnormal underflow are not
modelled: the dashboard's monetary magnitudes stay far inside the normal
range, where this is exactly the float64 rounding. -/
def float64Round (q : ℚ) : ℚ :=
  if q = 0 then 0
  else if 0 < q then
    (roundNearestEven (q * 2 ^ ((52 : ℤ) - Int.log 2 q)) : ℚ)
      / 2 ^ ((52 : ℤ) - Int.log 2 q)
  else
    -((roundNearestEven (-q * 2 ^ ((52 : ℤ) - Int.log 2 (-q))) : ℚ)
      / 2 ^ ((52 : ℤ) - Int.log 2 (-q)))

/-- The float64 value of the source literal 1.10: the binary64 number
nearest to 11/10, namely 2476979795053773 * 2^-51, slightly above
11/10. -/
def float64Lit110 : ℚ := 2476979795053773 / 2251799813685248

/-- The Projected (10% Growth) column: the float64 product of the
latest-year value with the literal 1.10, i.e. the exact product of the
two doubles rounded back to binary64 (the source computes
pivot_data[latest_year] * 1.10 on float columns). -/
def projectedGrowth (latest : ℚ) : ℚ :=
  float64Round (latest * float64Lit110)

/-- The per-center window sum of the modular tab when All Centers is
selected: rows with center_name == c (pandas comparison) inside the
window, summed over sales_collected_exc_tax; c ranges over the unique
center_name values of the whole record set. -/
def perCenterWindowSales (records : List SaleRecord) (occ : HolidayOccurrence)
    (c : Option String) : ℚ :=
  excTotal (records.filter (fun r => pandasEq r.center_name c && inWindow occ r.sale_date))

/-! ### Concrete data used by witnesses and counterexamples -/

/-- A single sale on 2023-01-01. -/
def recNY : SaleRecord := ⟨some "T NAGAR", toDayNum 2023 1 1, some 100, some 90⟩

/-- Diwali 2023 as an occurrence. -/
def diwaliOcc : HolidayOccurrence := ⟨"Diwali", 2023, toDayNum 2023 10 24⟩

/-- Three sales, all on the festival day 2023-10-24, inc-tax amounts
100, 200 and 0: the end-to-end data of the spec. -/
def diwaliRecords : List SaleRecord :=
  [⟨some "T NAGAR", toDayNum 2023 10 24, some 100, some 95⟩,
   ⟨some "ADYAR", toDayNum 2023 10 24, some 200, some 190⟩,
   ⟨some "T NAGAR", toDayNum 2023 10 24, some 0, some 0⟩]

/-- A window aggregate with a negative (hence nonzero) total. -/
def negAgg : WindowAggregate := ⟨"Any", 2023, "All Centers", -5, -5 / 6⟩

/-- A record whose inc-tax and exc-tax amounts differ (tax 18). -/
def taxRec : SaleRecord := ⟨some "T NAGAR", toDayNum 2023 10 24, some 118, some 100⟩

/-- A record whose inc-tax and exc-tax amounts coincide. -/
def taxFreeRec : SaleRecord := ⟨some "T NAGAR", toDayNum 2023 10 24, some 100, some 100⟩

/-- A raw row with a parsed date and a non-numeric inc-tax cell. -/
def rawBad : RawRecord := ⟨some "T NAGAR", some 0, RawVal.nonNumeric "abc", RawVal.numeric 90⟩

/-- A raw row with a parsed date and a null center_name. -/
def rawNull : RawRecord := ⟨none, some 0, RawVal.numeric 100, RawVal.numeric 90⟩

/-- A raw row that parses cleanly. -/
def rawGood : RawRecord := ⟨some "T NAGAR", some 5, RawVal.numeric 100, RawVal.numeric 90⟩

/-- A normalized record with a null outlet on day 0. -/
def nullRec : SaleRecord := ⟨none, 0, some 100, some 90⟩

/-! ### Helper lemmas -/

/-- A valid February 29 forces a leap year. -/
lemma isValidDate_feb29 {y : Nat} (h : isValidDate y 2 29 = true) :
    isLeapYear y = true := by
  by_cases hl : isLeapYear y = true
  · exact hl
  · simp [isValidDate, daysInMonth, hl] at h

/-- pandas comparison of a non-null cell against a candidate value is
plain equality on the candidate. -/
lemma pandasEq_some (x : String) (c : Option String) :
    pandasEq (some x) c = decide (c = some x) := by
  cases c with
  | none => simp [pandasEq]
  | some y => simp [pandasEq, Bool.beq_eq_decide_eq, eq_comm]

/-- Summing a function that vanishes on every element of the list. -/
lemma sum_map_eq_zero_of_not_mem {β : Type} [DecidableEq β] (v : ℚ) :
    ∀ (cs : List β) (b : β), b ∉ cs →
      (cs.map (fun c => if c = b then v else 0)).sum = 0 := by
  intro cs
  induction cs with
  | nil => intro b _; simp
  | cons a cs ih =>
    intro b hb
    have hab : a ≠ b := fun h => hb (by simp [h])
    have hbs : b ∉ cs := fun h => hb (List.mem_cons_of_mem a h)
    simp [hab, ih b hbs]

/-- Summing a function that is v at one list position and 0 elsewhere. -/
lemma sum_map_ite_eq {β : Type} [DecidableEq β] (v : ℚ) :
    ∀ (cs : List β) (b : β), cs.Nodup → b ∈ cs →
      (cs.map (fun c => if c = b then v else 0)).sum = v := by
  intro cs
  induction cs with
  | nil => intro b _ hb; simp at hb
  | cons a cs ih =>
    intro b hnd hb
    rcases List.mem_cons.mp hb with hba | hmem
    · have hnotin : b ∉ cs := hba ▸ (List.nodup_cons.mp hnd).1
      simp [hba.symm, sum_map_eq_zero_of_not_mem v cs b hnotin]
    · have hne : a ≠ b := by
        intro hab
        exact (List.nodup_cons.mp hnd).1 (hab ▸ hmem)
      simp [hne, ih b (List.nodup_cons.mp hnd).2 hmem]


/-- Pointwise addition distributes over a mapped sum. -/
lemma sum_map_add_distrib {β : Type} (f g : β → ℚ) :
    ∀ (cs : List β), (cs.map (fun c => f c + g c)).sum
      = (cs.map f).sum + (cs.map g).sum := by
  intro cs
  induction cs with
  | nil => simp
  | cons a cs ih => simp [ih]; ring

/-- Splitting a pandas sum at the head record. -/
lemma pdSum_map_cons (amt : SaleRecord → Option ℚ) (r : SaleRecord)
    (rs : List SaleRecord) :
    pdSum ((r :: rs).map amt) = (amt r).getD 0 + pdSum (rs.map amt) := by
  simp [pdSum]

/-- Partition of a pandas sum by center: when every record has a non-null
center_name occurring in the duplicate-free center list cs, summing the
per-center filtered sums over cs recovers the total sum.  The non-null
hypothesis matters: a NaN center_name compares false against every
center, so its rows land in no per-center group. -/
lemma pdSum_filter_partition (amt : SaleRecord → Option ℚ)
    (cs : List (Option String)) (hnd : cs.Nodup) :
    ∀ rs : List SaleRecord,
      (∀ r ∈ rs, ∃ x, r.center_name = some x ∧ some x ∈ cs) →
      (cs.map (fun c =>
        pdSum ((rs.filter (fun r => pandasEq r.center_name c)).map amt))).sum
        = pdSum (rs.map amt) := by
  intro rs
  induction rs with
  | nil => simp [pdSum]
  | cons r rest ih =>
    intro hall
    obtain ⟨x, hx, hxc⟩ := hall r (List.mem_cons_self r rest)
    have hrest : ∀ q ∈ rest, ∃ x, q.center_name = some x ∧ some x ∈ cs :=
      fun q hq => hall q (List.mem_cons_of_mem r hq)
    have hterm : ∀ c ∈ cs,
        pdSum (((r :: rest).filter (fun q => pandasEq q.center_name c)).map amt)
          = (if c = some x then (amt r).getD 0 else 0)
            + pdSum ((rest.filter (fun q => pandasEq q.center_name c)).map amt) := by
      intro c _
      rw [List.filter_cons]
      by_cases hc : c = some x
      · subst hc
        have hpe : pandasEq r.center_name (some x) = true := by
          rw [hx, pandasEq_some]; simp
        simp [hpe, pdSum]
      · have hpe : pandasEq r.center_name c = false := by
          rw [hx, pandasEq_some]
          simp [hc]
        simp [hpe, hc]
    calc (cs.map (fun c =>
            pdSum (((r :: rest).filter (fun q => pandasEq q.center_name c)).map amt))).sum
        = (cs.map (fun c =>
            (if c = some x then (amt r).getD 0 else 0)
              + pdSum ((rest.filter (fun q => pandasEq q.center_name c)).map amt))).sum := by
          rw [List.map_congr_left]
          intro c hc
          exact hterm c hc
      _ = (cs.map (fun c => if c = some x then (amt r).getD 0 else 0)).sum
            + (cs.map (fun c =>
                pdSum ((rest.filter (fun q => pandasEq q.center_name c)).map amt))).sum := by
          rw [sum_map_add_distrib]
      _ = (amt r).getD 0 + pdSum (rest.map amt) := by
          rw [sum_map_ite_eq _ cs (some x) hnd hxc, ih hrest]
      _ = pdSum ((r :: rest).map amt) := (pdSum_map_cons amt r rest).symm


/-- The years of the generated occurrences are exactly the input years
passing the occurrence condition, in input order. -/
lemma instantiate_map_year (records : List SaleRecord) (hd : HolidayDef) :
    ∀ years : List Nat,
      (instantiate records hd years).map (fun o => o.year)
        = years.filter (occursInYear records hd) := by
  intro years
  induction years with
  | nil => rfl
  | cons y ys ih =>
    by_cases h : occursInYear records hd y
    · simp only [instantiate, List.filterMap_cons, h, if_true, List.filter_cons,
        List.map_cons]
      simp only [instantiate] at ih
      rw [ih]
    · simp only [instantiate, List.filterMap_cons, h, if_false, List.filter_cons,
        Bool.false_eq_true]
      simp only [instantiate] at ih
      rw [ih]

/-! ### Claim theorems -/

/-- Claim C6 (code-bug evidence): the growth columns of app.py compute
((current / previous) - 1) * 100 with no guard on a zero previous-year
value; at previous = 0 and current = 150 the result is +infinity (rendered
inf%), at 0 and 0 it is NaN, never an explicit undefined marker.  The
guarded case behaves normally: 100 to 150 gives 50. -/
theorem growth_div_zero_inf :
    growthPct 0 150 = PdFloat.posInf
    ∧ growthPct 0 0 = PdFloat.nan
    ∧ growthPct 100 150 = PdFloat.fin 50 := by
  refine ⟨?_, ?_, ?_⟩ <;> norm_num [growthPct]

/-- Base-2 integer logarithm of a rational between 64 and 128. -/
lemma int_log2_eq_six {q : ℚ} (h1 : (64 : ℚ) ≤ q) (h2 : q < 128) :
    Int.log 2 q = 6 := by
  have hq : (0 : ℚ) < q := lt_of_lt_of_le (by norm_num) h1
  have hup : Int.log 2 q < 7 := by
    rw [← Int.lt_zpow_iff_log_lt (by norm_num) hq]
    rw [show (7 : ℤ) = ((7 : ℕ) : ℤ) from rfl, zpow_natCast]
    push_cast
    linarith
  have hlo : (6 : ℤ) ≤ Int.log 2 q := by
    rw [← Int.zpow_le_iff_le_log (by norm_num) hq]
    rw [show (6 : ℤ) = ((6 : ℕ) : ℤ) from rfl, zpow_natCast]
    push_cast
    linarith
  omega

/-- On the binade 64 to 128 the float64 rounding scales by 2^46. -/
lemma float64Round_of_64_le {q : ℚ} (h1 : (64 : ℚ) ≤ q) (h2 : q < 128) :
    float64Round q = (roundNearestEven (q * 2 ^ 46) : ℚ) / 2 ^ 46 := by
  have hq : (0 : ℚ) < q := lt_of_lt_of_le (by norm_num) h1
  unfold float64Round
  rw [if_neg (ne_of_gt hq), if_pos hq, int_log2_eq_six h1 h2]
  rw [show ((52 : ℤ) - 6) = ((46 : ℕ) : ℤ) by decide, zpow_natCast]

/-- The float64 product 100 * 1.10 evaluates to the double
7740561859543041 * 2^-46. -/
lemma projectedGrowth_100_eval :
    projectedGrowth 100 = 7740561859543041 / 70368744177664 := by
  have hq : (100 : ℚ) * float64Lit110 = 61924494876344325 / 562949953421312 := by
    norm_num [float64Lit110]
  have hrne : roundNearestEven ((61924494876344325 : ℚ) / 562949953421312 * 2 ^ 46)
      = 7740561859543041 := by
    have hx : (61924494876344325 : ℚ) / 562949953421312 * 2 ^ 46
        = 61924494876344325 / 8 := by norm_num
    have hf : Int.floor ((61924494876344325 : ℚ) / 8) = 7740561859543040 := by
      rw [Int.floor_eq_iff]
      constructor <;> norm_num
    unfold roundNearestEven
    rw [hx, hf]
    norm_num
  rw [projectedGrowth, hq, float64Round_of_64_le (by norm_num) (by norm_num), hrne]
  norm_num

/-- Counterexample to claim C7 as stated: in the program's float64
arithmetic, project(100) is 110.00000000000001 — the double
7740561859543041 * 2^-46 — and not exactly 110.0. -/
theorem projected_growth_not_exact :
    projectedGrowth 100 = 7740561859543041 / 70368744177664
    ∧ decide (projectedGrowth 100 = 110) = false := by
  refine ⟨projectedGrowth_100_eval, ?_⟩
  rw [projectedGrowth_100_eval, decide_eq_false_iff_not]
  norm_num

/-- Claim C7 (corrected): the projected column is the float64 product of
the latest value with the literal 1.10; for latest value 100 the result
exceeds 110 by exactly 2^-46 (it is 110.00000000000001, not 110.0).  The
deviation comes entirely from the literal: the double 1.10 is not 11/10,
while rounding the ideal product 100 * (11/10) would give exactly 110. -/
theorem projected_growth_spec :
    projectedGrowth 100 = 110 + 1 / 70368744177664
    ∧ decide (float64Lit110 = 11 / 10) = false
    ∧ float64Round (100 * (11 / 10)) = 110 := by
  refine ⟨?_, ?_, ?_⟩
  · rw [projectedGrowth_100_eval]
    norm_num
  · rw [decide_eq_false_iff_not]
    norm_num [float64Lit110]
  · have hq : (100 : ℚ) * (11 / 10) = 110 := by norm_num
    have hrne : roundNearestEven ((110 : ℚ) * 2 ^ 46) = 7740561859543040 := by
      have hx : (110 : ℚ) * 2 ^ 46 = 7740561859543040 := by norm_num
      have hf : Int.floor ((7740561859543040 : ℚ)) = 7740561859543040 := by
        rw [Int.floor_eq_iff]
        constructor <;> norm_num
      unfold roundNearestEven
      rw [hx, hf]
      norm_num
    rw [hq, float64Round_of_64_le (by norm_num) (by norm_num), hrne]
    norm_num

/-- Counterexample to claim C8 as stated: a retained row with the
non-numeric inc-tax cell abc is normalized to a NaN (none) amount, not to
zero; the row is kept. -/
theorem normalize_nonnumeric_not_zero :
    normalize [rawBad] = [⟨some "T NAGAR", 0, none, some 90⟩]
    ∧ decide ((⟨some "T NAGAR", 0, none, some 90⟩ : SaleRecord).sales_collected_inc_tax
        = some 0) = false := by
  exact ⟨rfl, by rw [decide_eq_false_iff_not]; simp⟩

/-- Claim C8 (corrected): for every input row retained by the normalizer,
each monetary field whose raw value is missing or non-numeric is coerced
to NaN (a missing value, skipped by downstream sums) in the normalized
record, not to zero; such rows are kept, not dropped. -/
theorem normalize_coercion_spec :
    ∀ (rows : List RawRecord) (raw : RawRecord) (d : Int),
      raw ∈ rows → raw.sale_date = some d →
        normalizeRow raw d ∈ normalize rows
        ∧ (normalizeRow raw d).sales_collected_inc_tax = toNumeric raw.sales_collected_inc_tax
        ∧ (normalizeRow raw d).sales_collected_exc_tax = toNumeric raw.sales_collected_exc_tax
        ∧ (∀ v : RawVal,
            toNumeric v = none ↔ v = RawVal.missing ∨ ∃ s, v = RawVal.nonNumeric s) := by
  intro rows raw d hmem hd
  refine ⟨?_, rfl, rfl, ?_⟩
  · exact List.mem_filterMap.mpr ⟨raw, hmem, by rw [hd]⟩
  · intro v
    cases v <;> simp [toNumeric]

/-- Witness for C8 at the concrete bad row. -/
theorem normalize_coercion_spec_witness :
    normalizeRow rawBad 0 ∈ normalize [rawBad]
    ∧ (normalizeRow rawBad 0).sales_collected_inc_tax = toNumeric rawBad.sales_collected_inc_tax := by
  have h := normalize_coercion_spec [rawBad] rawBad 0 (List.mem_singleton.mpr rfl) rfl
  exact ⟨h.1, h.2.1⟩

/-- Counterexample to claim C9 as stated: a raw row with a valid date and
a null center_name is retained by the normalizer with its null outlet
intact; no outlet check exists in load_sales_data. -/
theorem normalize_keeps_null_outlet :
    normalize [rawNull] = [nullRec] ∧ nullRec.center_name = none :=
  ⟨rfl, rfl⟩

/-- Claim C9 (corrected): every record in the normalized output comes from
an input row whose sale date parsed (rows with unparseable dates are
dropped, and only those: the output length equals the count of rows with a
parsed date); the outlet identifier is copied as-is and is not checked, so
null-outlet rows are retained. -/
theorem normalize_date_invariant :
    ∀ rows : List RawRecord,
      ((normalize rows).length = (rows.filter (fun r => r.sale_date.isSome)).length)
      ∧ (∀ rec ∈ normalize rows, ∃ raw ∈ rows,
          raw.sale_date = some rec.sale_date ∧ rec = normalizeRow raw rec.sale_date) := by
  intro rows
  constructor
  · induction rows with
    | nil => rfl
    | cons r rs ih =>
      cases h : r.sale_date with
      | none =>
        simpa [normalize, List.filterMap_cons, List.filter_cons, h] using ih
      | some d =>
        simpa [normalize, List.filterMap_cons, List.filter_cons, h] using ih
  · intro rec hrec
    obtain ⟨raw, hraw, hf⟩ := List.mem_filterMap.mp hrec
    cases h : raw.sale_date with
    | none =>
      rw [h] at hf
      simp at hf
    | some d =>
      rw [h] at hf
      simp only [Option.some_inj] at hf
      have hdate : rec.sale_date = d := by
        rw [← hf]
        simp [normalizeRow]
      refine ⟨raw, hraw, ?_, ?_⟩
      · rw [h, hdate]
      · rw [hdate, hf]

/-- Witness for C9 at the concrete clean row. -/
theorem normalize_date_invariant_witness :
    ∃ raw ∈ [rawGood],
      raw.sale_date = some ((normalizeRow rawGood 5).sale_date)
      ∧ normalizeRow rawGood 5 = normalizeRow raw ((normalizeRow rawGood 5).sale_date) :=
  (normalize_date_invariant [rawGood]).2 (normalizeRow rawGood 5)
    (List.mem_filterMap.mpr ⟨rawGood, List.mem_singleton.mpr rfl, rfl⟩)


/-- Counterexample to claim C1 as stated: with no sales records, New Year
2023 — a valid, non-Feb-29 date — yields no occurrence at all rather than
exactly one per year, because the loop emits a row only when sales exist
on the exact festival date. -/
theorem instantiate_skips_saleless_year :
    instantiate [] ⟨"New Year", 1, 1⟩ [2023] = []
    ∧ isValidDate 2023 1 1 = true
    ∧ decide ((instantiate [] ⟨"New Year", 1, 1⟩ [2023]).length = [2023].length)
        = false := by
  refine ⟨by decide, by decide, by decide⟩

/-- Claim C1 (corrected): instantiate emits exactly one occurrence for
each input year in which the (month, day) date is valid AND at least one
sales record falls on that exact date, in input-year order (so ascending
when the input years are ascending); all other years — Feb 29 in
non-leap years, and any year with no sales on the festival date — are
skipped silently.  Every emitted occurrence carries the constructed
date, and for a Feb 29 holiday every emitted year is a leap year. -/
theorem instantiate_spec :
    ∀ (records : List SaleRecord) (hd : HolidayDef) (years : List Nat),
      ((instantiate records hd years).map (fun o => o.year)
        = years.filter (occursInYear records hd))
      ∧ (∀ occ ∈ instantiate records hd years,
          isValidDate occ.year hd.month hd.day = true
          ∧ occ.dateNum = toDayNum occ.year hd.month hd.day
          ∧ (salesOnDate records occ.dateNum).isEmpty = false)
      ∧ (hd.month = 2 → hd.day = 29 →
          ∀ occ ∈ instantiate records hd years, isLeapYear occ.year = true)
      ∧ (years.Pairwise (· < ·) →
          ((instantiate records hd years).map (fun o => o.year)).Pairwise (· < ·)) := by
  intro records hd years
  have hshape : ∀ occ ∈ instantiate records hd years,
      isValidDate occ.year hd.month hd.day = true
      ∧ occ.dateNum = toDayNum occ.year hd.month hd.day
      ∧ (salesOnDate records occ.dateNum).isEmpty = false := by
    intro occ hocc
    obtain ⟨y, hy, hf⟩ := List.mem_filterMap.mp hocc
    by_cases h : occursInYear records hd y
    · rw [if_pos h] at hf
      have hocc2 : occ = ⟨hd.name, y, toDayNum y hd.month hd.day⟩ :=
        (Option.some_inj.mp hf).symm
      have hcond := h
      simp only [occursInYear, Bool.and_eq_true, Bool.not_eq_true',
        List.isEmpty_eq_false] at hcond
      subst hocc2
      refine ⟨hcond.1, rfl, ?_⟩
      simp only [List.isEmpty_eq_false]
      exact hcond.2
    · rw [if_neg h] at hf
      cases hf
  refine ⟨instantiate_map_year records hd years, hshape, ?_, ?_⟩
  · intro h2 h29 occ hocc
    have hv := (hshape occ hocc).1
    rw [h2, h29] at hv
    exact isValidDate_feb29 hv
  · intro hp
    rw [instantiate_map_year records hd years]
    exact hp.filter _

/-- Witness for C1: one sale on 2023-01-01; New Year over the ascending
years 2022, 2023 emits its occurrence years in ascending order, and a
Feb 29 holiday emits only leap years. -/
theorem instantiate_spec_witness :
    ((instantiate [recNY] ⟨"New Year", 1, 1⟩ [2022, 2023]).map
        (fun o => o.year)).Pairwise (· < ·)
    ∧ (∀ occ ∈ instantiate [recNY] ⟨"Feb29", 2, 29⟩ [2023, 2024],
        isLeapYear occ.year = true) :=
  ⟨(instantiate_spec [recNY] ⟨"New Year", 1, 1⟩ [2022, 2023]).2.2.2 (by decide),
   (instantiate_spec [recNY] ⟨"Feb29", 2, 29⟩ [2023, 2024]).2.2.1 rfl rfl⟩

/-- Claim C2 (confirmed): the Average Daily Sales of a festival
performance entry is its Total Window Sales divided by the fixed literal
6 — the calendar length of the lookback-3 lookahead-2 window — for every
record set, occurrence and center filter, independent of how many days
inside the window actually traded.  In the concrete Diwali data all three
sales fall on a single trading day and the average is still 300 / 6 =
50. -/
theorem aggregate_avg_daily_div6 :
    (∀ (records : List SaleRecord) (occ : HolidayOccurrence)
        (cf : Option String) (lbl : String),
      (mkWindowAggregate records occ cf lbl).avgDaily
        = (mkWindowAggregate records occ cf lbl).totalSales / 6)
    ∧ (mkWindowAggregate diwaliRecords diwaliOcc none "All Centers").totalSales = 300
    ∧ (mkWindowAggregate diwaliRecords diwaliOcc none "All Centers").avgDaily = 50
    ∧ ((windowRecords diwaliRecords diwaliOcc none).map
        (fun r => r.sale_date)).dedup.length = 1 := by
  refine ⟨fun records occ cf lbl => rfl, ?_, ?_, ?_⟩
  · norm_num [mkWindowAggregate, appWindowSales, incTotal, pdSum, windowRecords,
      matchesCenter, inWindow, windowStart, windowEnd, diwaliRecords, diwaliOcc,
      List.filter]
  · norm_num [mkWindowAggregate, appWindowSales, incTotal, pdSum, windowRecords,
      matchesCenter, inWindow, windowStart, windowEnd, diwaliRecords, diwaliOcc,
      List.filter]
  · norm_num [windowRecords, matchesCenter, inWindow, windowStart, windowEnd,
      diwaliRecords, diwaliOcc, List.filter, List.dedup]

/-- Claim C3 (confirmed): the trading window runs from the occurrence
date minus 3 days to the occurrence date plus 2 days, both ends included,
spans exactly 3 + 2 + 1 = 6 calendar days, and the source filters records
to sale timestamps within that closed interval (plus the center filter
when one is selected). -/
theorem window_bounds_spec :
    ∀ (occ : HolidayOccurrence) (records : List SaleRecord)
      (cf : Option String) (r : SaleRecord),
      windowStart occ = occ.dateNum - 3
      ∧ windowEnd occ = occ.dateNum + 2
      ∧ windowEnd occ - windowStart occ + 1 = 6
      ∧ (r ∈ windowRecords records occ cf
          ↔ r ∈ records ∧ matchesCenter cf r = true
            ∧ occ.dateNum - 3 ≤ r.sale_date ∧ r.sale_date ≤ occ.dateNum + 2) := by
  intro occ records cf r
  refine ⟨rfl, rfl, ?_, ?_⟩
  · simp only [windowStart, windowEnd]
    ring
  · simp [windowRecords, List.mem_filter, inWindow, windowStart, windowEnd,
      and_assoc]

/-- Counterexample to claim C4 as stated: an aggregate with total sales
-5 — nonzero — is nevertheless dropped by the ranking, which keeps only
strictly positive totals. -/
theorem rankWindows_drops_negative :
    rankWindows [negAgg] = [] ∧ decide (negAgg.totalSales = 0) = false := by
  constructor
  · norm_num [rankWindows, negAgg, List.filter]
  · rw [decide_eq_false_iff_not]
    norm_num [negAgg]

/-- Claim C4 (corrected): rankWindows keeps exactly the aggregates with
strictly positive total sales — so it excludes zero totals, but also
nonzero negative ones — and orders the kept aggregates descending by
total sales.  The relative order of aggregates with equal totals is left
unspecified: the source's default sort kind does not promise stability,
so only these sort-independent properties are asserted. -/
theorem rankWindows_spec :
    ∀ aggs : List WindowAggregate,
      (rankWindows aggs).Perm (aggs.filter (fun a => decide (0 < a.totalSales)))
      ∧ (rankWindows aggs).Pairwise (fun a b => b.totalSales ≤ a.totalSales) := by
  intro aggs
  have htrans : ∀ a b c : WindowAggregate,
      decide (b.totalSales ≤ a.totalSales) = true →
      decide (c.totalSales ≤ b.totalSales) = true →
      decide (c.totalSales ≤ a.totalSales) = true := by
    intro a b c hab hbc
    simp only [decide_eq_true_eq] at hab hbc ⊢
    exact le_trans hbc hab
  have htotal : ∀ a b : WindowAggregate,
      (decide (b.totalSales ≤ a.totalSales)
        || decide (a.totalSales ≤ b.totalSales)) = true := by
    intro a b
    simp only [Bool.or_eq_true, decide_eq_true_eq]
    exact le_total _ _
  refine ⟨List.mergeSort_perm _ _, ?_⟩
  have h := List.sorted_mergeSort htrans htotal
    (aggs.filter (fun a => decide (0 < a.totalSales)))
  exact h.imp (fun hab => of_decide_eq_true hab)

/-- Counterexample to claim C5 as stated: one record with a null
center_name on the occurrence date; the pandas comparison column == center
is false even against the null center itself, so the per-outlet sums add
to 0 while the all-outlets total is 100. -/
theorem perOutlet_sum_misses_null_center :
    ((uniqueCenters (salesOnDate [nullRec] 0)).map
        (perCenterIncTotal (salesOnDate [nullRec] 0))).sum = 0
    ∧ incTotal (salesOnDate [nullRec] 0) = 100
    ∧ decide (((uniqueCenters (salesOnDate [nullRec] 0)).map
          (perCenterIncTotal (salesOnDate [nullRec] 0))).sum
        = incTotal (salesOnDate [nullRec] 0)) = false := by
  refine ⟨?_, ?_, ?_⟩
  · norm_num [uniqueCenters, perCenterIncTotal, salesOnDate, incTotal, pdSum,
      pandasEq, nullRec, List.filter, List.dedup]
  · norm_num [salesOnDate, incTotal, pdSum, nullRec, List.filter]
  · rw [decide_eq_false_iff_not]
    norm_num [uniqueCenters, perCenterIncTotal, salesOnDate, incTotal, pdSum,
      pandasEq, nullRec, List.filter, List.dedup]

/-- Claim C5 (corrected): provided every relevant record carries a
non-null outlet, the per-outlet totals add up exactly to the all-outlets
total — no double counting, no omission.  Both instances are proved: the
exact-date breakdown of app.py (per-center sums over the festival-date
rows against their inc-tax total) and the per-center window sums of
dashboard_tabs.py (against the exc-tax window total).  Null-outlet rows
break the equation, since a NaN center matches no per-center group. -/
theorem perOutlet_sum_eq_total :
    ∀ (records : List SaleRecord) (d : Int) (occ : HolidayOccurrence),
      ((∀ r ∈ salesOnDate records d, r.center_name ≠ none) →
        ((uniqueCenters (salesOnDate records d)).map
          (perCenterIncTotal (salesOnDate records d))).sum
          = incTotal (salesOnDate records d))
      ∧ ((∀ r ∈ windowRecords records occ none, r.center_name ≠ none) →
        ((uniqueCenters records).map (perCenterWindowSales records occ)).sum
          = modWindowSales records occ none) := by
  intro records d occ
  constructor
  · intro hnn
    simp only [perCenterIncTotal, incTotal]
    apply pdSum_filter_partition _ _ (List.nodup_dedup _)
    intro r hr
    obtain ⟨x, hx⟩ := Option.ne_none_iff_exists.mp (hnn r hr)
    refine ⟨x, hx.symm, ?_⟩
    rw [hx]
    exact List.mem_dedup.mpr (List.mem_map_of_mem _ hr)
  · intro hnn
    have hws : ∀ c : Option String,
        records.filter (fun r => pandasEq r.center_name c && inWindow occ r.sale_date)
          = (windowRecords records occ none).filter (fun r => pandasEq r.center_name c) := by
      intro c
      rw [windowRecords, List.filter_filter]
      apply List.filter_congr
      intro r _
      simp [matchesCenter, Bool.and_comm]
    simp only [modWindowSales, excTotal, uniqueCenters]
    have hmap : List.map (perCenterWindowSales records occ)
          ((records.map (fun r => r.center_name)).dedup)
        = List.map (fun c => pdSum (((windowRecords records occ none).filter
            (fun r => pandasEq r.center_name c)).map
              (fun r => r.sales_collected_exc_tax)))
            ((records.map (fun r => r.center_name)).dedup) := by
      apply List.map_congr_left
      intro c _
      unfold perCenterWindowSales excTotal
      rw [hws c]
    rw [hmap]
    apply pdSum_filter_partition _ _ (List.nodup_dedup _)
    intro r hr
    obtain ⟨x, hx⟩ := Option.ne_none_iff_exists.mp (hnn r hr)
    refine ⟨x, hx.symm, ?_⟩
    rw [hx]
    exact List.mem_dedup.mpr (List.mem_map_of_mem _ (List.mem_of_mem_filter hr))

/-- Witness for C5 at the Diwali data: per-center totals 100 + 200 + 0
over T NAGAR and ADYAR add to the all-centers total 300. -/
theorem perOutlet_sum_eq_total_witness :
    ((uniqueCenters (salesOnDate diwaliRecords (toDayNum 2023 10 24))).map
      (perCenterIncTotal (salesOnDate diwaliRecords (toDayNum 2023 10 24)))).sum
      = incTotal (salesOnDate diwaliRecords (toDayNum 2023 10 24)) :=
  (perOutlet_sum_eq_total diwaliRecords (toDayNum 2023 10 24) diwaliOcc).1 (by decide)

/-- Counterexample to claim C10 as stated: one in-window record with
inc-tax 118 and exc-tax 100; the original tab totals 118, the modular tab
totals 100. -/
theorem app_mod_window_sales_differ :
    appWindowSales [taxRec] diwaliOcc none = 118
    ∧ modWindowSales [taxRec] diwaliOcc none = 100
    ∧ decide (appWindowSales [taxRec] diwaliOcc none
        = modWindowSales [taxRec] diwaliOcc none) = false := by
  refine ⟨?_, ?_, ?_⟩
  · norm_num [appWindowSales, modWindowSales, incTotal, excTotal, pdSum,
      windowRecords, matchesCenter, inWindow, windowStart, windowEnd, taxRec,
      diwaliOcc, List.filter]
  · norm_num [appWindowSales, modWindowSales, incTotal, excTotal, pdSum,
      windowRecords, matchesCenter, inWindow, windowStart, windowEnd, taxRec,
      diwaliOcc, List.filter]
  · rw [decide_eq_false_iff_not]
    norm_num [appWindowSales, modWindowSales, incTotal, excTotal, pdSum,
      windowRecords, matchesCenter, inWindow, windowStart, windowEnd, taxRec,
      diwaliOcc, List.filter]

/-- Claim C10 (corrected): both holiday tabs apply the identical window
and outlet filter, but the original tab sums sales_collected_inc_tax
while the modular tab sums sales_collected_exc_tax; the two window totals
therefore agree whenever every record's inc-tax amount equals its exc-tax
amount, and can differ otherwise (as the taxed counterexample shows). -/
theorem app_mod_window_sales_agree :
    ∀ (records : List SaleRecord) (occ : HolidayOccurrence) (cf : Option String),
      (∀ r ∈ records, r.sales_collected_inc_tax = r.sales_collected_exc_tax) →
      appWindowSales records occ cf = modWindowSales records occ cf := by
  intro records occ cf h
  unfold appWindowSales modWindowSales incTotal excTotal
  congr 1
  apply List.map_congr_left
  intro r hr
  exact h r (List.mem_of_mem_filter hr)

/-- Witness for C10 at a tax-free record: with equal inc- and exc-tax
amounts the two tabs agree. -/
theorem app_mod_window_sales_agree_witness :
    appWindowSales [taxFreeRec] diwaliOcc none
      = modWindowSales [taxFreeRec] diwaliOcc none :=
  app_mod_window_sales_agree [taxFreeRec] diwaliOcc none (by decide)

end Dashboard
